import Mathlib

/-!
Shallow embedding of the Moltbook futarchy-governance registration pipeline.

The definitions below are translated from the Python sources:
* `scripts/agent_registration_system.py` (class `MoltbookAgentRecruiter`):
  challenge issuance/verification, address-ownership verification, candidate
  filtering and scoring, registration-request creation, evaluation and
  approval.
* `scripts/registration_api_server.py` and `backend/register.py`:
  submission validation and registration-id generation.

External collaborators (the `eth_account` signature-recovery routine, the
`datetime` parser, `secrets` entropy, `hashlib.sha256`) are passed in as
explicit function parameters; an exception raised by a collaborator is
modelled as `Option.none`.  Machine state (`self.pending_registrations`,
`self.registered_agents`) is passed explicitly; Python dicts become
association lists with unique keys via `insertKey`/`eraseKey`.  Side effects
of onboarding (the logged initial token allocation) are recorded as an
explicit event list.
-/

namespace Moltbook

/-- One entry of `self.pending_registrations` when it was stored by
`generate_registration_url`: the dict
`{'challenge': ..., 'timestamp': ..., 'status': 'invited'}`.
Timestamps are modelled as integers (seconds). -/
structure ChallengeEntry where
  challenge : String
  timestamp : Int
  status : String
deriving Repr, DecidableEq

/-- The dataclass `RegistrationRequest` of `agent_registration_system.py`. -/
structure RegistrationRequest where
  request_id : String
  moltbook_username : String
  blockchain_address : String
  specialization : List String
  motivation : String
  timestamp : Int
  verification_challenge : String
  status : String
deriving Repr, DecidableEq

/-- `self.pending_registrations` maps usernames to challenge dicts and
request ids to `RegistrationRequest` dicts in the same Python dict; an entry
is one or the other. -/
inductive PendingEntry where
  | chal (c : ChallengeEntry)
  | req (r : RegistrationRequest)
deriving Repr, DecidableEq

/-- The dataclass `AgentProfile` of `agent_registration_system.py`.
`contribution_history` entries are modelled by their `'type'` string. -/
structure AgentProfile where
  moltbook_username : String
  blockchain_address : String
  specialization : List String
  karma_score : ℚ
  join_timestamp : Int
  verification_status : String
  governance_weight : ℚ
  preferred_focus_areas : List String
  contribution_history : List String
  identity_proof : String
deriving Repr, DecidableEq

/-- A candidate dict as consumed by `filter_candidates` and
`calculate_candidate_score` (fields read with `.get` and numeric defaults). -/
structure Candidate where
  username : String
  karma : ℚ
  specializations : List String
  posts_per_month : ℚ
  followers : ℚ
  last_active : String
deriving Repr, DecidableEq

/-- A candidate-profile dict as consumed by `calculate_approval_score`
(`karma`, `days_since_last_post` defaulting to 999, `specializations`,
`community_rating`). -/
structure CandidateData where
  karma : ℚ
  days_since_last_post : ℚ
  specializations : List String
  community_rating : ℚ
deriving Repr, DecidableEq

/-- A registration submission dict as read by
`process_registration_request` / `verify_registration_challenge` /
`create_registration_request` (fields read with `.get(..., '')`). -/
structure IncomingRegistration where
  username : String
  blockchain_address : String
  specializations : List String
  motivation : String
  verification_signature : String
  challenge_response : String
deriving Repr, DecidableEq

/-- The configuration fields of `create_default_config` that the embedded
functions read. -/
structure Config where
  min_karma_requirement : ℚ
  auto_approve_threshold : ℚ
  specialization_categories : List String
deriving Repr, DecidableEq

/-- The default configuration written by `create_default_config`. -/
def default_config : Config :=
  { min_karma_requirement := 50
    auto_approve_threshold := 200
    specialization_categories :=
      ["smart_contract_development", "trading_algorithms", "data_analysis",
       "content_creation", "community_management", "research", "governance",
       "economic_modeling", "security_auditing", "user_experience"] }

/-- The recruiter's mutable state: `self.registered_agents`,
`self.pending_registrations`, and the log of initial-token allocations
performed by `allocate_initial_tokens` (which reports each grant of
1000 GOVN to the external ledger). -/
structure RecruiterState where
  registered_agents : List (String × AgentProfile)
  pending_registrations : List (String × PendingEntry)
  allocation_events : List (String × Nat)
deriving Repr, DecidableEq

/-- Python `d[k]` / `d.get(k)` on a dict modelled as an association list. -/
def lookupKey {α : Type} : List (String × α) → String → Option α
  | [], _ => none
  | kv :: tl, k => if kv.1 = k then some kv.2 else lookupKey tl k

/-- Python `del d[k]`. -/
def eraseKey {α : Type} : List (String × α) → String → List (String × α)
  | [], _ => []
  | kv :: tl, k => if kv.1 = k then eraseKey tl k else kv :: eraseKey tl k

/-- Python `d[k] = v` (dict keys are unique). -/
def insertKey {α : Type} (m : List (String × α)) (k : String) (v : α) :
    List (String × α) :=
  eraseKey m k ++ [(k, v)]

theorem lookupKey_append {α : Type} (m m2 : List (String × α)) (k : String) :
    lookupKey (m ++ m2) k =
      (lookupKey m k).elim (lookupKey m2 k) some := by
  induction m with
  | nil => simp [lookupKey]
  | cons hd tl ih =>
    by_cases h : hd.1 = k <;> simp [lookupKey, h, ih]

theorem lookupKey_eraseKey_self {α : Type} (m : List (String × α))
    (k : String) : lookupKey (eraseKey m k) k = none := by
  induction m with
  | nil => rfl
  | cons hd tl ih =>
    by_cases h : hd.1 = k <;> simp [lookupKey, eraseKey, h, ih]

theorem lookupKey_eraseKey_ne {α : Type} (m : List (String × α))
    (k k2 : String) (h : ¬k = k2) :
    lookupKey (eraseKey m k2) k = lookupKey m k := by
  have h3 : ¬k2 = k := fun hk => h hk.symm
  induction m with
  | nil => rfl
  | cons hd tl ih =>
    by_cases h1 : hd.1 = k2
    · have h2 : ¬hd.1 = k := fun hk => h3 (h1 ▸ hk)
      simp [lookupKey, eraseKey, h1, h2, h3, ih]
    · by_cases h2 : hd.1 = k <;> simp [lookupKey, eraseKey, h1, h2, h, ih]

theorem lookupKey_insertKey_self {α : Type} (m : List (String × α))
    (k : String) (v : α) : lookupKey (insertKey m k v) k = some v := by
  simp [insertKey, lookupKey_append, lookupKey_eraseKey_self, lookupKey]

theorem lookupKey_insertKey_ne {α : Type} (m : List (String × α))
    (k k2 : String) (v : α) (h : ¬k = k2) :
    lookupKey (insertKey m k2 v) k = lookupKey m k := by
  have h2 : ¬k2 = k := fun hk => h hk.symm
  simp [insertKey, lookupKey_append, lookupKey_eraseKey_ne m k k2 h,
    lookupKey, h2]
  cases hcase : lookupKey m k <;> simp

/-- `MoltbookAgentRecruiter.generate_registration_url` (the state part):
stores a fresh challenge token for the username with the current timestamp
and status `'invited'`.  The token comes from `secrets.token_urlsafe(32)`
and is passed in as the `token` parameter. -/
def generate_registration_url (token : String) (now : Int)
    (st : RecruiterState) (username : String) : RecruiterState :=
  let entry : PendingEntry := PendingEntry.chal
    { challenge := token, timestamp := now, status := "invited" }
  { st with pending_registrations :=
      insertKey st.pending_registrations username entry }

/-- `MoltbookAgentRecruiter.verify_registration_challenge`.  Returns
`none` when the Python code would raise (the entry under the username has
no `'challenge'` key because it is a request dict); otherwise `some` of the
boolean result.  Note the function reads no clock and mutates nothing. -/
def verify_registration_challenge (st : RecruiterState)
    (registration : IncomingRegistration) : Option Bool :=
  match lookupKey st.pending_registrations registration.username with
  | none => some false
  | some (PendingEntry.chal c) =>
      some (registration.challenge_response == c.challenge)
  | some (PendingEntry.req _) => none

/-- Python's `str.lower()` on one character (ASCII case folding, as
applied to hex addresses). -/
def lowerChar (c : Char) : Char :=
  if 65 ≤ c.toNat ∧ c.toNat ≤ 90 then Char.ofNat (c.toNat + 32) else c

/-- Python's `str.lower()` (character-wise case folding). -/
def lowerString (s : String) : String := String.mk (s.data.map lowerChar)

/-- The message built by `verify_address_ownership`:
`f"Moltbook Governance Registration\nUsername: {username}\nTimestamp: {int(time.time())}"`. -/
def registration_message (username : String) (now : Int) : String :=
  "Moltbook Governance Registration\nUsername: " ++ username ++
    "\nTimestamp: " ++ toString now

/-- `MoltbookAgentRecruiter.verify_address_ownership`.  The composition of
`web3.keccak` and `eth_account`'s `recover_message` is the abstract
collaborator `recover : message → signature → Option address`; `none`
models any exception in the `try` block, which the `except` clause turns
into `False`. -/
def verify_address_ownership (recover : String → String → Option String)
    (now : Int) (username address signature : String) : Bool :=
  match recover (registration_message username now) signature with
  | none => false
  | some recovered => lowerString recovered == lowerString address

/-- `len(set(specializations) & set(config_specs))`: the number of distinct
tags occurring in both lists. -/
def matchCount (specializations config_specs : List String) : Nat :=
  (specializations.dedup.filter (fun s => s ∈ config_specs)).length

/-- `MoltbookAgentRecruiter.calculate_candidate_score`. -/
def calculate_candidate_score (cfg : Config) (candidate : Candidate) : ℚ :=
  min (candidate.karma / 10) 40 +
    min ((matchCount candidate.specializations cfg.specialization_categories : ℚ) * 6) 30 +
    min candidate.posts_per_month 20 +
    min (candidate.followers / 10) 10

/-- `MoltbookAgentRecruiter.calculate_approval_score`. -/
def calculate_approval_score (cfg : Config) (data : CandidateData) : ℚ :=
  (if cfg.auto_approve_threshold ≤ data.karma then (100 : ℚ) else 0) +
    (if data.days_since_last_post ≤ 3 then (50 : ℚ) else 0) +
    (matchCount data.specializations cfg.specialization_categories : ℚ) * 20 +
    (if (4.5 : ℚ) ≤ data.community_rating then (30 : ℚ) else 0)

/-- `MoltbookAgentRecruiter.create_registration_request`.  `secrets.token_hex(16)`
is fresh OS entropy passed in as `new_request_id`; the request is stored in
`self.pending_registrations` under that id with status `'pending'`. -/
def create_registration_request (new_request_id : String) (now : Int)
    (st : RecruiterState) (registration : IncomingRegistration) :
    String × RecruiterState :=
  let r : RegistrationRequest :=
    { request_id := new_request_id
      moltbook_username := registration.username
      blockchain_address := registration.blockchain_address
      specialization := registration.specializations
      motivation := registration.motivation
      timestamp := now
      verification_challenge := registration.challenge_response
      status := "pending" }
  let pending :=
    insertKey st.pending_registrations new_request_id (PendingEntry.req r)
  (new_request_id, { st with pending_registrations := pending })

/-- `request['status'] = s` on the request dict stored under `request_id`
(dicts are mutated in place in the Python code). -/
def set_request_status (st : RecruiterState) (request_id s : String) :
    RecruiterState :=
  let pending := st.pending_registrations.map (fun kv =>
    if kv.1 = request_id then
      match kv.2 with
      | PendingEntry.req r => (kv.1, PendingEntry.req { r with status := s })
      | e => (kv.1, e)
    else kv)
  { st with pending_registrations := pending }

/-- `MoltbookAgentRecruiter.approve_registration`.  Returns `none` when the
Python code would raise: `self.pending_registrations[request_id]` is a
`KeyError` if the id is absent, and `request['moltbook_username']` is a
`KeyError` if the entry is a challenge dict.  Otherwise an `AgentProfile`
is stored under the username, the onboarding allocation of 1000 GOVN is
logged, and the request is removed from the pending set. -/
def approve_registration (now : Int) (st : RecruiterState)
    (request_id : String) : Option RecruiterState :=
  match lookupKey st.pending_registrations request_id with
  | some (PendingEntry.req r) =>
      let profile : AgentProfile :=
        { moltbook_username := r.moltbook_username
          blockchain_address := r.blockchain_address
          specialization := r.specialization
          karma_score := 0
          join_timestamp := now
          verification_status := "verified"
          governance_weight := 0
          preferred_focus_areas := []
          contribution_history := []
          identity_proof := r.verification_challenge }
      let agents := insertKey st.registered_agents r.moltbook_username profile
      let pending := eraseKey st.pending_registrations request_id
      let events := st.allocation_events ++ [(r.moltbook_username, 1000)]
      some { registered_agents := agents, pending_registrations := pending,
             allocation_events := events }
  | _ => none

/-- `MoltbookAgentRecruiter.evaluate_registration_request`.  The Moltbook
profile fetch `get_candidate_data` is the abstract collaborator `fetch`
(`none` = unavailable).  Returns `none` when the code would raise (the
entry under the id is a challenge dict). -/
def evaluate_registration_request (fetch : String → Option CandidateData)
    (cfg : Config) (now : Int) (st : RecruiterState) (request_id : String) :
    Option RecruiterState :=
  match lookupKey st.pending_registrations request_id with
  | none => some st
  | some (PendingEntry.chal _) => none
  | some (PendingEntry.req r) =>
      match fetch r.moltbook_username with
      | none => some (set_request_status st request_id "rejected")
      | some data =>
          if cfg.auto_approve_threshold ≤ calculate_approval_score cfg data
          then approve_registration now st request_id
          else some (set_request_status st request_id "manual_review")

/-- `MoltbookAgentRecruiter.process_registration_request`: verify the
challenge (on failure, log and return — the state is not changed), verify
address ownership (same), create a registration request and evaluate it.
`new_request_id` is the `secrets.token_hex(16)` entropy used by
`create_registration_request`. -/
def process_registration_request (recover : String → String → Option String)
    (fetch : String → Option CandidateData) (new_request_id : String)
    (now : Int) (cfg : Config) (st : RecruiterState)
    (registration : IncomingRegistration) : Option RecruiterState :=
  match verify_registration_challenge st registration with
  | none => none
  | some false => some st
  | some true =>
      if verify_address_ownership recover now registration.username
          registration.blockchain_address registration.verification_signature
      then
        let p := create_registration_request new_request_id now st registration
        evaluate_registration_request fetch cfg now p.2 p.1
      else some st

/-- Observer: does any entry of the pending set carry status `'rejected'`? -/
def has_rejected_entry (st : RecruiterState) : Bool :=
  st.pending_registrations.any (fun kv =>
    match kv.2 with
    | PendingEntry.chal c => c.status == "rejected"
    | PendingEntry.req r => r.status == "rejected")

/-- Observer: the number of initial-token grants logged for a username. -/
def allocation_count (st : RecruiterState) (username : String) : Nat :=
  (st.allocation_events.filter (fun e => e.1 == username)).length

/-- Overwrite the issued-at timestamp of a challenge entry (helper for
stating that verification ignores the timestamp). -/
def stamp_entry (t : Int) : PendingEntry → PendingEntry
  | PendingEntry.chal c => PendingEntry.chal { c with timestamp := t }
  | e => e

/-- State surgery used only to state timestamp-independence: overwrite the
`issued-at` timestamp of the challenge stored for `username`. -/
def set_challenge_timestamp (st : RecruiterState) (username : String)
    (t : Int) : RecruiterState :=
  let pending := st.pending_registrations.map (fun kv =>
    if kv.1 = username then (kv.1, stamp_entry t kv.2) else kv)
  { st with pending_registrations := pending }

/-- Insert a candidate into a list sorted by descending recruitment score,
after any already-placed candidate of equal or higher score (this is the
stable descending order produced by `list.sort(key=..., reverse=True)`). -/
def insertByScoreDesc (score : Candidate → ℚ) (c : Candidate) :
    List Candidate → List Candidate
  | [] => [c]
  | x :: xs =>
      if score x < score c then c :: x :: xs
      else x :: insertByScoreDesc score c xs

/-- `qualified.sort(key=lambda x: x['recruitment_score'], reverse=True)`:
stable sort by descending score. -/
def sortByScoreDesc (score : Candidate → ℚ) (l : List Candidate) :
    List Candidate :=
  l.foldl (fun acc x => insertByScoreDesc score x acc) []

/-- The per-candidate test of `MoltbookAgentRecruiter.filter_candidates`:
not already registered, karma at least `min_karma_requirement`, not known
to have been inactive for more than 7 days (`age_days` models the `try`
block computing `(datetime.now() - datetime.fromisoformat(last_active)).days`;
`none` models a parse exception, which the bare `except: pass` ignores),
and recruitment score strictly above 70. -/
def candidate_qualifies (cfg : Config)
    (registered : List (String × AgentProfile))
    (age_days : String → Option Int) (c : Candidate) : Bool :=
  !(lookupKey registered c.username).isSome &&
    !(c.karma < cfg.min_karma_requirement) &&
    !(match age_days c.last_active with
      | some d => decide (7 < d)
      | none => false) &&
    decide ((70 : ℚ) < calculate_candidate_score cfg c)

/-- `MoltbookAgentRecruiter.filter_candidates`: keep qualifying candidates,
sort by descending recruitment score, return the top 10. -/
def filter_candidates (cfg : Config)
    (registered : List (String × AgentProfile))
    (age_days : String → Option Int) (candidates : List Candidate) :
    List Candidate :=
  (sortByScoreDesc (calculate_candidate_score cfg)
      (candidates.filter (candidate_qualifies cfg registered age_days))).take 10

/-- A registration submission body as read by `register_agent` in
`registration_api_server.py` (and identically by `handler.do_POST` in
`backend/register.py`).  `none` models an absent JSON key; Python
truthiness makes an empty string or empty list count as missing too. -/
structure SubmitPayload where
  moltbook_username : Option String
  blockchain_address : Option String
  specializations : Option (List String)
  verification_signature : Option String
  challenge_response : Option String
  motivation : Option String
  email : Option String
deriving Repr, DecidableEq

/-- Python truthiness of `data.get(field)` for a string field. -/
def truthyStr : Option String → Bool
  | none => false
  | some s => !s.isEmpty

/-- Python truthiness of `data.get(field)` for a list field. -/
def truthyList : Option (List String) → Bool
  | none => false
  | some l => !l.isEmpty

/-- `data.get(field)` truthiness by field name, as used in the validation
loop of `register_agent`. -/
def payload_field_truthy (d : SubmitPayload) : String → Bool
  | "moltbook_username" => truthyStr d.moltbook_username
  | "blockchain_address" => truthyStr d.blockchain_address
  | "specializations" => truthyList d.specializations
  | "verification_signature" => truthyStr d.verification_signature
  | "challenge_response" => truthyStr d.challenge_response
  | _ => false

/-- The `required_fields` list of `register_agent` / `handler.do_POST`. -/
def required_fields : List String :=
  ["moltbook_username", "blockchain_address", "specializations",
   "verification_signature"]

/-- The first required field failing the truthiness check (the validation
loop returns on the first missing field). -/
def first_missing_field (d : SubmitPayload) : Option String :=
  required_fields.find? (fun f => !payload_field_truthy d f)

/-- The `registration_request` dict built by `register_agent` /
`handler.do_POST` on the success path.  `now` is
`datetime.now().isoformat()`. -/
structure StoredRegistration where
  username : String
  blockchain_address : String
  specializations : List String
  motivation : String
  email : String
  verification_signature : String
  challenge_response : String
  timestamp : String
  ip_address : String
deriving Repr, DecidableEq

/-- Build the `registration_request` dict from a validated payload. -/
def build_registration (now ip : String) (d : SubmitPayload) :
    StoredRegistration :=
  { username := d.moltbook_username.getD ""
    blockchain_address := d.blockchain_address.getD ""
    specializations := d.specializations.getD []
    motivation := d.motivation.getD ""
    email := d.email.getD ""
    verification_signature := d.verification_signature.getD ""
    challenge_response := d.challenge_response.getD ""
    timestamp := now
    ip_address := ip }

/-- `generate_registration_id` of `registration_api_server.py` and
`backend/register.py`:
`hashlib.sha256((username + timestamp + blockchain_address).encode()).hexdigest()[:16]`.
The SHA-256 hex digest is the abstract parameter `sha`. -/
def generate_registration_id (sha : String → String)
    (r : StoredRegistration) : String :=
  String.mk
    ((sha (r.username ++ r.timestamp ++ r.blockchain_address)).data.take 16)

/-- Result of a registration submission: HTTP 400 with
`Missing required field: <field>`, or HTTP 200 with the registration id. -/
inductive RegisterResult where
  | missing_field (message : String)
  | ok (registration_id : String)
deriving Repr, DecidableEq

/-- `register_agent` of `registration_api_server.py`: validate the four
required fields (returning a 400 naming the first missing one, without
saving anything), otherwise build the registration record, append it to
the pending-registrations store and answer with the generated id. -/
def register_agent (sha : String → String) (now ip : String)
    (store : List StoredRegistration) (d : SubmitPayload) :
    RegisterResult × List StoredRegistration :=
  match first_missing_field d with
  | some f =>
      (RegisterResult.missing_field ("Missing required field: " ++ f), store)
  | none =>
      let r := build_registration now ip d
      (RegisterResult.ok (generate_registration_id sha r), store ++ [r])

/-! ## Claim C3: a failed challenge check records no rejection -/

/-- Concrete state for C3: a challenge is stored for `carol`. -/
def stC3 : RecruiterState :=
  { registered_agents := []
    pending_registrations :=
      [("carol", PendingEntry.chal
        { challenge := "tokc", timestamp := 0, status := "invited" })]
    allocation_events := [] }

/-- A submission by `carol` with the wrong challenge response. -/
def regBadC3 : IncomingRegistration :=
  { username := "carol", blockchain_address := "0xC", specializations := []
    motivation := "", verification_signature := "sig"
    challenge_response := "wrong" }

/-- Claim C3, counterexample: processing a registration whose challenge
verification returns false leaves the state completely unchanged, and in
particular no entry anywhere carries status `rejected` — the rejection is
only a log line and an early return, not recorded state. -/
theorem challenge_rejection_not_recorded_counterexample :
    process_registration_request (fun _ _ => none) (fun _ => none) "rid" 0
        default_config stC3 regBadC3 = some stC3 ∧
      has_rejected_entry stC3 = false := by
  constructor
  · rfl
  · rfl

/-- Claim C3 (amended): when challenge verification returns false,
`process_registration_request` logs and returns — the state is unchanged,
and no `rejected` status is recorded for the registration. -/
theorem process_challenge_failure_no_state_change
    (recover : String → String → Option String)
    (fetch : String → Option CandidateData) (rid : String) (now : Int)
    (cfg : Config) (st : RecruiterState) (reg : IncomingRegistration)
    (h : verify_registration_challenge st reg = some false) :
    process_registration_request recover fetch rid now cfg st reg = some st := by
  unfold process_registration_request
  rw [h]

/-- Witness for `process_challenge_failure_no_state_change` at the C3
concrete input. -/
theorem process_challenge_failure_no_state_change_witness :
    process_registration_request (fun _ _ => some "0xC") (fun _ => none)
      "rid" 0 default_config stC3 regBadC3 = some stC3 :=
  process_challenge_failure_no_state_change (fun _ _ => some "0xC")
    (fun _ => none) "rid" 0 default_config stC3 regBadC3 (by decide)

/-! ## Claim C4: required submission fields -/

/-- A payload carrying the four fields the servers actually require, but no
`challenge_response`. -/
def d_no_challenge : SubmitPayload :=
  { moltbook_username := some "user1", blockchain_address := some "0x1"
    specializations := some ["research"]
    verification_signature := some "sig", challenge_response := none
    motivation := none, email := none }

/-- Claim C4, counterexample: a payload missing only `challenge_response`
is accepted — the handler returns success with a registration id and
appends a registration record, instead of a validation failure naming the
field. -/
theorem missing_challenge_response_accepted_counterexample :
    (register_agent (fun s => s) "2026-01-01" "ip" [] d_no_challenge).1 =
        RegisterResult.ok "user12026-01-010" ∧
      (register_agent (fun s => s) "2026-01-01" "ip" [] d_no_challenge).2 =
        [build_registration "2026-01-01" "ip" d_no_challenge] := by
  constructor
  · decide
  · decide

/-- Claim C4 (amended): the servers require only the four fields
`moltbook_username`, `blockchain_address`, `specializations`,
`verification_signature` (not `challenge_response`); when one of these is
missing (or falsy) the handler returns a validation failure naming the
first such field and stores nothing. -/
theorem register_agent_missing_field_rejects (sha : String → String)
    (now ip : String) (store : List StoredRegistration) (d : SubmitPayload)
    (f : String) (h : first_missing_field d = some f) :
    payload_field_truthy d f = false ∧ f ∈ required_fields ∧
      register_agent sha now ip store d =
        (RegisterResult.missing_field ("Missing required field: " ++ f),
          store) := by
  have h2 : required_fields.find? (fun f => !payload_field_truthy d f) =
      some f := h
  refine ⟨?_, List.mem_of_find?_eq_some h2, ?_⟩
  · have h3 := List.find?_some h2
    simpa using h3
  · unfold register_agent
    rw [h]

/-- Witness for `register_agent_missing_field_rejects`: a payload missing
only the signature is rejected with the field name and no stored record. -/
theorem register_agent_missing_field_rejects_witness :
    payload_field_truthy
        { moltbook_username := some "user1", blockchain_address := some "0x1"
          specializations := some ["research"]
          verification_signature := none, challenge_response := some "c"
          motivation := none, email := none } "verification_signature" =
        false ∧
      "verification_signature" ∈ required_fields ∧
      register_agent (fun s => s) "t" "ip" []
          { moltbook_username := some "user1"
            blockchain_address := some "0x1"
            specializations := some ["research"]
            verification_signature := none, challenge_response := some "c"
            motivation := none, email := none } =
        (RegisterResult.missing_field
          ("Missing required field: " ++ "verification_signature"), []) :=
  register_agent_missing_field_rejects (fun s => s) "t" "ip" []
    { moltbook_username := some "user1", blockchain_address := some "0x1"
      specializations := some ["research"]
      verification_signature := none, challenge_response := some "c"
      motivation := none, email := none } "verification_signature" (by decide)

/-! ## Claim C5: registration ids -/

/-- Concrete state and submission for the C5 counterexample. -/
def regC5 : IncomingRegistration :=
  { username := "dave", blockchain_address := "0xD", specializations := []
    motivation := "", verification_signature := "sig"
    challenge_response := "tok" }

/-- Claim C5, counterexample: the recruiter's
`create_registration_request` draws its request id from fresh
`secrets.token_hex(16)` entropy — two submissions with identical identity,
timestamp and claimed address (here: the very same record at the same
time) receive different request ids when the entropy differs, so the id is
not derived from those three fields. -/
theorem random_request_id_counterexample :
    (create_registration_request "aa11" 0
        { registered_agents := [], pending_registrations := []
          allocation_events := [] } regC5).1 ≠
      (create_registration_request "bb22" 0
        { registered_agents := [], pending_registrations := []
          allocation_events := [] } regC5).1 := by
  decide

/-- Claim C5 (amended): the HTTP servers' `generate_registration_id` is
deterministic in exactly the identity, the submission timestamp and the
claimed address: two stored registrations agreeing on those three fields
(whatever their other fields) receive the same id.  The recruiter's
internal `create_registration_request` instead assigns a fresh random id. -/
theorem generate_registration_id_deterministic (sha : String → String)
    (r1 r2 : StoredRegistration) (hu : r1.username = r2.username)
    (ht : r1.timestamp = r2.timestamp)
    (ha : r1.blockchain_address = r2.blockchain_address) :
    generate_registration_id sha r1 = generate_registration_id sha r2 := by
  unfold generate_registration_id
  rw [hu, ht, ha]

/-- Witness for `generate_registration_id_deterministic`: two records that
differ in motivation, email and ip but share the three id fields. -/
theorem generate_registration_id_deterministic_witness :
    generate_registration_id (fun s => s)
        { username := "eve", blockchain_address := "0xE"
          specializations := ["a"], motivation := "m1", email := "e1"
          verification_signature := "s1", challenge_response := "c1"
          timestamp := "T0", ip_address := "1.1.1.1" } =
      generate_registration_id (fun s => s)
        { username := "eve", blockchain_address := "0xE"
          specializations := ["b"], motivation := "m2", email := "e2"
          verification_signature := "s2", challenge_response := "c2"
          timestamp := "T0", ip_address := "2.2.2.2" } :=
  generate_registration_id_deterministic (fun s => s) _ _ rfl rfl rfl

/-! ## Claims C6 and C9: address-ownership verification -/

/-- A possible behavior of the abstract recovery collaborator: the
recovered address is a function of the signed message (here, the message
itself), as ECDSA recovery is. -/
def recover_echo : String → String → Option String := fun m _ => some m

/-- The claimed address used in the C6 counterexample. -/
def addrC6 : String := registration_message "u" 1

/-- Claim C6, counterexample: `verify_address_ownership` embeds the
current time `int(time.time())` in the message it recovers against, so two
calls with identical `(username, address, signature)` inputs made at
different times give different results. -/
theorem ownership_time_dependent_counterexample :
    verify_address_ownership recover_echo 1 "u" addrC6 "s" = true ∧
      verify_address_ownership recover_echo 2 "u" addrC6 "s" = false := by
  constructor
  · decide
  · decide

/-- Claim C6 (amended): the verification result is a deterministic
function of the built message, the signature and the claimed address; the
current time enters only through the message (which embeds
`int(time.time())`), so whenever two calls build the same message they
agree — but calls at different times build different messages and may
differ. -/
theorem verify_ownership_message_determined
    (recover : String → String → Option String) (now1 now2 : Int)
    (u a s : String)
    (h : registration_message u now1 = registration_message u now2) :
    verify_address_ownership recover now1 u a s =
      verify_address_ownership recover now2 u a s := by
  unfold verify_address_ownership
  rw [h]

/-- Witness for `verify_ownership_message_determined` at equal times. -/
theorem verify_ownership_message_determined_witness :
    verify_address_ownership recover_echo 5 "u" "a" "s" =
      verify_address_ownership recover_echo 5 "u" "a" "s" :=
  verify_ownership_message_determined recover_echo 5 5 "u" "a" "s" rfl

/-- Claim C9 (confirmed): `verify_address_ownership` always returns a
boolean (any exception in the recovery collaborator, modelled as `none`,
is caught and turned into `false` — it fails closed), and it returns true
exactly when recovery succeeded and the recovered address equals the
claimed address case-insensitively. -/
theorem verify_ownership_fails_closed_iff
    (recover : String → String → Option String) (now : Int)
    (u a s : String) :
    (recover (registration_message u now) s = none →
        verify_address_ownership recover now u a s = false) ∧
      (verify_address_ownership recover now u a s = true ↔
        ∃ r, recover (registration_message u now) s = some r ∧
          lowerString r = lowerString a) := by
  unfold verify_address_ownership
  cases h : recover (registration_message u now) s with
  | none => simp
  | some r => simp [h]

/-- Witness for `verify_ownership_fails_closed_iff`: a raising recovery
fails closed, and a case-insensitive address match verifies. -/
theorem verify_ownership_fails_closed_iff_witness :
    verify_address_ownership (fun _ _ => none) 0 "u" "a" "s" = false ∧
      verify_address_ownership (fun _ _ => some "0xAB") 0 "u" "0xab" "s" =
        true := by
  constructor
  · exact (verify_ownership_fails_closed_iff (fun _ _ => none) 0
      "u" "a" "s").1 rfl
  · exact (verify_ownership_fails_closed_iff (fun _ _ => some "0xAB") 0
      "u" "0xab" "s").2.mpr ⟨"0xAB", rfl, by decide⟩

/-! ## Claim C2: challenge expiry -/

theorem lookupKey_stamp_map (m : List (String × PendingEntry))
    (u : String) (t : Int) :
    lookupKey
        (m.map (fun kv => if kv.1 = u then (kv.1, stamp_entry t kv.2) else kv))
        u =
      (lookupKey m u).map (stamp_entry t) := by
  induction m with
  | nil => rfl
  | cons hd tl ih =>
    by_cases h : hd.1 = u <;> simp [lookupKey, h, ih]

/-- Concrete state for C2: a challenge for `bob` issued at time 0. -/
def stC2 : RecruiterState :=
  { registered_agents := []
    pending_registrations :=
      [("bob", PendingEntry.chal
        { challenge := "tokb", timestamp := 0, status := "invited" })]
    allocation_events := [] }

/-- A submission by `bob` carrying the correct token. -/
def regC2 : IncomingRegistration :=
  { username := "bob", blockchain_address := "0xB", specializations := []
    motivation := "", verification_signature := "sig"
    challenge_response := "tokb" }

/-- Claim C2, counterexample: the challenge was issued at time 0 and the
correct response is submitted at time 4000, beyond the spec's 3600-second
TTL — yet verification succeeds, because
`verify_registration_challenge` never reads the stored timestamp and no
TTL appears anywhere in the code. -/
theorem challenge_expiry_ignored_counterexample :
    lookupKey stC2.pending_registrations "bob" =
        some (PendingEntry.chal
          { challenge := "tokb", timestamp := 0, status := "invited" }) ∧
      (3600 : Int) < 4000 - 0 ∧
      verify_registration_challenge stC2 regC2 = some true := by
  refine ⟨rfl, by decide, rfl⟩

/-- Claim C2 (amended): challenge verification performs no expiry check at
all — its result is unchanged under arbitrarily rewriting the stored
issued-at timestamp, so a correct response succeeds at any age. -/
theorem verify_challenge_ignores_timestamp (st : RecruiterState)
    (reg : IncomingRegistration) (t : Int) :
    verify_registration_challenge (set_challenge_timestamp st reg.username t)
        reg =
      verify_registration_challenge st reg := by
  simp only [verify_registration_challenge, set_challenge_timestamp]
  rw [lookupKey_stamp_map]
  cases lookupKey st.pending_registrations reg.username with
  | none => rfl
  | some e => cases e <;> rfl

/-! ## Claim C1: challenge replay -/

theorem lookupKey_status_map_ne (m : List (String × PendingEntry))
    (rid s k : String) (hk : ¬k = rid) :
    lookupKey
        (m.map (fun kv =>
          if kv.1 = rid then
            match kv.2 with
            | PendingEntry.req r => (kv.1, PendingEntry.req { r with status := s })
            | e => (kv.1, e)
          else kv)) k =
      lookupKey m k := by
  have h3 : ¬rid = k := fun hh => hk hh.symm
  induction m with
  | nil => rfl
  | cons hd tl ih =>
    by_cases h1 : hd.1 = rid
    · have h2 : ¬hd.1 = k := fun hh => hk (hh ▸ h1)
      cases hc : hd.2 <;> simp [lookupKey, h1, h2, h3, hk, hc, ih]
    · by_cases h2 : hd.1 = k <;> simp [lookupKey, h1, h2, h3, hk, ih]

theorem lookupKey_set_request_status_ne (st : RecruiterState)
    (rid s k : String) (hk : ¬k = rid) :
    lookupKey (set_request_status st rid s).pending_registrations k =
      lookupKey st.pending_registrations k := by
  cases st
  exact lookupKey_status_map_ne _ rid s k hk

theorem approve_preserves_other_pending (now : Int) (st st' : RecruiterState)
    (rid k : String) (hk : ¬k = rid)
    (h : approve_registration now st rid = some st') :
    lookupKey st'.pending_registrations k =
      lookupKey st.pending_registrations k := by
  unfold approve_registration at h
  split at h
  · injection h with h2
    subst h2
    exact lookupKey_eraseKey_ne _ k rid hk
  · exact Option.noConfusion h

theorem evaluate_preserves_other_pending (fetch : String → Option CandidateData)
    (cfg : Config) (now : Int) (st st' : RecruiterState) (rid k : String)
    (hk : ¬k = rid)
    (h : evaluate_registration_request fetch cfg now st rid = some st') :
    lookupKey st'.pending_registrations k =
      lookupKey st.pending_registrations k := by
  unfold evaluate_registration_request at h
  split at h
  · injection h with h2
    subst h2
    rfl
  · exact Option.noConfusion h
  · split at h
    · injection h with h2
      subst h2
      exact lookupKey_set_request_status_ne st rid "rejected" k hk
    · split at h
      · exact approve_preserves_other_pending now st st' rid k hk h
      · injection h with h2
        subst h2
        exact lookupKey_set_request_status_ne st rid "manual_review" k hk

/-- Processing a submission never touches pending entries other than the
one stored under the freshly drawn request id; in particular the
challenge entry keyed by the username survives untouched. -/
theorem process_preserves_other_pending
    (recover : String → String → Option String)
    (fetch : String → Option CandidateData) (rid : String) (now : Int)
    (cfg : Config) (st st' : RecruiterState) (reg : IncomingRegistration)
    (k : String) (hk : ¬k = rid)
    (h : process_registration_request recover fetch rid now cfg st reg =
      some st') :
    lookupKey st'.pending_registrations k =
      lookupKey st.pending_registrations k := by
  unfold process_registration_request at h
  split at h
  · exact Option.noConfusion h
  · injection h with h2
    subst h2
    rfl
  · split at h
    · have h3 := evaluate_preserves_other_pending fetch cfg now _ st' rid k hk h
      rw [h3]
      simp only [create_registration_request]
      exact lookupKey_insertKey_ne _ k rid _ hk
    · injection h with h2
      subst h2
      rfl

/-- Concrete state for C1: a challenge for `alice` with token `tok123`. -/
def stC1 : RecruiterState :=
  { registered_agents := []
    pending_registrations :=
      [("alice", PendingEntry.chal
        { challenge := "tok123", timestamp := 0, status := "invited" })]
    allocation_events := [] }

/-- A submission by `alice` carrying the correct token. -/
def regC1 : IncomingRegistration :=
  { username := "alice", blockchain_address := "0xAB"
    specializations := ["research"], motivation := "m"
    verification_signature := "sig", challenge_response := "tok123" }

/-- Recovery collaborator for C1: recovery yields the claimed address. -/
def recoverC1 : String → String → Option String := fun _ _ => some "0xab"

/-- Profile fetch for C1 (the collaborator happens to be unavailable, so
evaluation takes the hard-reject branch; no branch of the pipeline touches
the challenge entry either way). -/
def fetchC1 : String → Option CandidateData := fun _ => none

/-- The state after processing `regC1` from `stC1` end to end: a request
was created and evaluated, yet alice's challenge entry is still present,
unconsumed. -/
def stC1' : RecruiterState :=
  { registered_agents := []
    pending_registrations :=
      [("alice", PendingEntry.chal
        { challenge := "tok123", timestamp := 0, status := "invited" }),
       ("reqid01", PendingEntry.req
        { request_id := "reqid01", moltbook_username := "alice"
          blockchain_address := "0xAB", specialization := ["research"]
          motivation := "m", timestamp := 0
          verification_challenge := "tok123", status := "rejected" })]
    allocation_events := [] }

/-- Claim C1, counterexample: verification with the correct response
succeeds, the registration is then fully processed to approval — and a
second verification with the very same correct response still succeeds,
because nothing ever marks the challenge consumed.  Replay is accepted,
contradicting the claim that the second call fails. -/
theorem challenge_replay_counterexample :
    verify_registration_challenge stC1 regC1 = some true ∧
      process_registration_request recoverC1 fetchC1 "reqid01" 0
        default_config stC1 regC1 = some stC1' ∧
      verify_registration_challenge stC1' regC1 = some true := by
  refine ⟨rfl, by decide, rfl⟩

/-- Claim C1 (amended): verification with the correct response succeeds,
and stays successful after the submission has been fully processed (the
pipeline never consumes or removes the challenge entry, which lives under
the username while processing only writes under the fresh request id), so
an identical second call succeeds as well: replay is accepted. -/
theorem verify_challenge_replay_accepted
    (recover : String → String → Option String)
    (fetch : String → Option CandidateData) (rid : String) (now : Int)
    (cfg : Config) (st st' : RecruiterState) (reg : IncomingRegistration)
    (c : ChallengeEntry)
    (hc : lookupKey st.pending_registrations reg.username =
      some (PendingEntry.chal c))
    (hr : reg.challenge_response = c.challenge)
    (hrid : ¬reg.username = rid)
    (hp : process_registration_request recover fetch rid now cfg st reg =
      some st') :
    verify_registration_challenge st reg = some true ∧
      verify_registration_challenge st' reg = some true := by
  have hpres := process_preserves_other_pending recover fetch rid now cfg
    st st' reg reg.username hrid hp
  constructor
  · unfold verify_registration_challenge
    rw [hc]
    simp [hr]
  · unfold verify_registration_challenge
    rw [hpres, hc]
    simp [hr]

/-- Witness for `verify_challenge_replay_accepted` at the concrete C1 run. -/
theorem verify_challenge_replay_accepted_witness :
    verify_registration_challenge stC1 regC1 = some true ∧
      verify_registration_challenge stC1' regC1 = some true :=
  verify_challenge_replay_accepted recoverC1 fetchC1 "reqid01" 0
    default_config stC1 stC1' regC1
    { challenge := "tok123", timestamp := 0, status := "invited" }
    rfl rfl (by decide) (by decide)

/-! ## Claim C7: approval idempotence -/

/-- Two distinct pending requests for the same username `alice`. -/
def stTwoC7 : RecruiterState :=
  { registered_agents := []
    pending_registrations :=
      [("rid1", PendingEntry.req
        { request_id := "rid1", moltbook_username := "alice"
          blockchain_address := "0xAB", specialization := []
          motivation := "", timestamp := 0
          verification_challenge := "tok", status := "pending" }),
       ("rid2", PendingEntry.req
        { request_id := "rid2", moltbook_username := "alice"
          blockchain_address := "0xAB", specialization := []
          motivation := "", timestamp := 0
          verification_challenge := "tok", status := "pending" })]
    allocation_events := [] }

/-- The state after approving `rid1`: alice is approved and one grant is
logged; `rid2` is still pending. -/
def stBC7 : RecruiterState :=
  { registered_agents :=
      [("alice",
        { moltbook_username := "alice", blockchain_address := "0xAB"
          specialization := [], karma_score := 0, join_timestamp := 0
          verification_status := "verified", governance_weight := 0
          preferred_focus_areas := [], contribution_history := []
          identity_proof := "tok" })]
    pending_registrations :=
      [("rid2", PendingEntry.req
        { request_id := "rid2", moltbook_username := "alice"
          blockchain_address := "0xAB", specialization := []
          motivation := "", timestamp := 0
          verification_challenge := "tok", status := "pending" })]
    allocation_events := [("alice", 1000)] }

/-- The state after additionally approving `rid2`: alice's profile is
overwritten and a second 1000-token grant is logged. -/
def stCC7 : RecruiterState :=
  { registered_agents :=
      [("alice",
        { moltbook_username := "alice", blockchain_address := "0xAB"
          specialization := [], karma_score := 0, join_timestamp := 0
          verification_status := "verified", governance_weight := 0
          preferred_focus_areas := [], contribution_history := []
          identity_proof := "tok" })]
    pending_registrations := []
    allocation_events := [("alice", 1000), ("alice", 1000)] }

/-- Claim C7, counterexample: with two pending requests for the same
username, approving the second request after the first — i.e. calling
approve on an identity that is already approved — succeeds and logs a
second 1000-token initial grant, so approval is not no-op/error and
double-grants. -/
theorem approve_double_grant_counterexample :
    approve_registration 0 stTwoC7 "rid1" = some stBC7 ∧
      (lookupKey stBC7.registered_agents "alice").isSome = true ∧
      approve_registration 0 stBC7 "rid2" = some stCC7 ∧
      allocation_count stCC7 "alice" = 2 := by
  refine ⟨by decide, rfl, by decide, rfl⟩

/-- Claim C7 (amended): re-approving the *same request id* is a clean
error with no effect — approval removes the request from the pending set,
so a second `approve_registration` call with that id raises `KeyError`
(modelled `none`) and allocates nothing and creates nothing.  (A second,
distinct pending request for the same username does double-grant, per the
counterexample.) -/
theorem approve_registration_not_reapprovable (now now2 : Int)
    (st st' : RecruiterState) (rid : String)
    (h : approve_registration now st rid = some st') :
    approve_registration now2 st' rid = none := by
  unfold approve_registration at h ⊢
  split at h
  · injection h with h2
    subst h2
    rw [lookupKey_eraseKey_self]
  · exact Option.noConfusion h

/-- Witness for `approve_registration_not_reapprovable` at the concrete
C7 run. -/
theorem approve_registration_not_reapprovable_witness :
    approve_registration 1 stBC7 "rid1" = none :=
  approve_registration_not_reapprovable 0 1 stTwoC7 stBC7 "rid1" (by decide)

/-! ## Claim C8: recruitment score bounds and monotonicity -/

/-- A candidate record with negative karma (nothing in the code or its
inputs forbids one). -/
def cNegC8 : Candidate :=
  { username := "neg", karma := -100, specializations := []
    posts_per_month := 0, followers := 0, last_active := "" }

/-- Claim C8, counterexample: every component of
`calculate_candidate_score` is capped above but not below, so a candidate
with karma = -100 scores min(-10,40)+0+0+0 = -10, outside [0,100]. -/
theorem candidate_score_negative_counterexample :
    calculate_candidate_score default_config cNegC8 < 0 := by
  norm_num [calculate_candidate_score, matchCount, cNegC8, default_config,
    min_def]

/-- Claim C8 (amended): the recruitment score is monotone non-decreasing
in karma, in the overlapping-tag count, in posts per month and in
followers, each varied independently, and is bounded above by 100; it is
bounded below by 0 — hence within [0,100] — whenever karma, posts per
month and followers are non-negative (the code caps each component above
but not below). -/
theorem calculate_candidate_score_bounds_monotone (cfg : Config)
    (c : Candidate) :
    calculate_candidate_score cfg c ≤ 100 ∧
      (0 ≤ c.karma → 0 ≤ c.posts_per_month → 0 ≤ c.followers →
        0 ≤ calculate_candidate_score cfg c) ∧
      (∀ c2 : Candidate, c2.specializations = c.specializations →
        c2.posts_per_month = c.posts_per_month → c2.followers = c.followers →
        c.karma ≤ c2.karma →
        calculate_candidate_score cfg c ≤ calculate_candidate_score cfg c2) ∧
      (∀ c2 : Candidate, c2.karma = c.karma →
        c2.posts_per_month = c.posts_per_month → c2.followers = c.followers →
        matchCount c.specializations cfg.specialization_categories ≤
          matchCount c2.specializations cfg.specialization_categories →
        calculate_candidate_score cfg c ≤ calculate_candidate_score cfg c2) ∧
      (∀ c2 : Candidate, c2.karma = c.karma →
        c2.specializations = c.specializations → c2.followers = c.followers →
        c.posts_per_month ≤ c2.posts_per_month →
        calculate_candidate_score cfg c ≤ calculate_candidate_score cfg c2) ∧
      (∀ c2 : Candidate, c2.karma = c.karma →
        c2.specializations = c.specializations →
        c2.posts_per_month = c.posts_per_month →
        c.followers ≤ c2.followers →
        calculate_candidate_score cfg c ≤ calculate_candidate_score cfg c2) := by
  refine ⟨?_, ?_, ?_, ?_, ?_, ?_⟩
  · unfold calculate_candidate_score
    have h1 := min_le_right (c.karma / 10) (40 : ℚ)
    have h2 := min_le_right
      ((matchCount c.specializations cfg.specialization_categories : ℚ) * 6)
      (30 : ℚ)
    have h3 := min_le_right c.posts_per_month (20 : ℚ)
    have h4 := min_le_right (c.followers / 10) (10 : ℚ)
    linarith
  · intro hk hp hf
    unfold calculate_candidate_score
    have h1 : (0 : ℚ) ≤ min (c.karma / 10) 40 :=
      le_min (div_nonneg hk (by norm_num)) (by norm_num)
    have h2 : (0 : ℚ) ≤ min
        ((matchCount c.specializations cfg.specialization_categories : ℚ) * 6)
        30 :=
      le_min (by positivity) (by norm_num)
    have h3 : (0 : ℚ) ≤ min c.posts_per_month 20 := le_min hp (by norm_num)
    have h4 : (0 : ℚ) ≤ min (c.followers / 10) 10 :=
      le_min (div_nonneg hf (by norm_num)) (by norm_num)
    linarith
  · intro c2 hs hp hf hk
    unfold calculate_candidate_score
    rw [hs, hp, hf]
    gcongr
  · intro c2 hk hp hf hm
    unfold calculate_candidate_score
    rw [hk, hp, hf]
    have hm2 : (matchCount c.specializations cfg.specialization_categories : ℚ) ≤
        (matchCount c2.specializations cfg.specialization_categories : ℚ) :=
      Nat.cast_le.mpr hm
    gcongr
  · intro c2 hk hs hf hp
    unfold calculate_candidate_score
    rw [hk, hs, hf]
    gcongr
  · intro c2 hk hs hp hf
    unfold calculate_candidate_score
    rw [hk, hs, hp]
    gcongr

/-- Fixed candidate used in the C8 witness. -/
def cW8 : Candidate :=
  { username := "w", karma := 100, specializations := ["research"]
    posts_per_month := 5, followers := 30, last_active := "" }

/-- Witness for `calculate_candidate_score_bounds_monotone`: all six
conjuncts discharged at concrete candidates. -/
theorem calculate_candidate_score_bounds_monotone_witness :
    calculate_candidate_score default_config cW8 ≤ 100 ∧
      0 ≤ calculate_candidate_score default_config cW8 ∧
      calculate_candidate_score default_config cW8 ≤
        calculate_candidate_score default_config { cW8 with karma := 200 } ∧
      calculate_candidate_score default_config cW8 ≤
        calculate_candidate_score default_config
          { cW8 with specializations := ["research", "governance"] } ∧
      calculate_candidate_score default_config cW8 ≤
        calculate_candidate_score default_config
          { cW8 with posts_per_month := 9 } ∧
      calculate_candidate_score default_config cW8 ≤
        calculate_candidate_score default_config
          { cW8 with followers := 40 } := by
  have h := calculate_candidate_score_bounds_monotone default_config cW8
  refine ⟨h.1, h.2.1 (by norm_num [cW8]) (by norm_num [cW8])
      (by norm_num [cW8]), ?_, ?_, ?_, ?_⟩
  · exact h.2.2.1 { cW8 with karma := 200 } rfl rfl rfl (by norm_num [cW8])
  · exact h.2.2.2.1 { cW8 with specializations := ["research", "governance"] }
      rfl rfl rfl (by decide)
  · exact h.2.2.2.2.1 { cW8 with posts_per_month := 9 } rfl rfl rfl
      (by norm_num [cW8])
  · exact h.2.2.2.2.2 { cW8 with followers := 40 } rfl rfl rfl
      (by norm_num [cW8])

/-! ## Claim C10: candidate filtering -/

theorem mem_insertByScoreDesc (score : Candidate → ℚ) (c x : Candidate)
    (l : List Candidate) :
    x ∈ insertByScoreDesc score c l ↔ x = c ∨ x ∈ l := by
  induction l with
  | nil => simp [insertByScoreDesc]
  | cons hd tl ih =>
    by_cases h : score hd < score c
    · simp [insertByScoreDesc, h]
    · simp [insertByScoreDesc, h, ih]
      tauto

theorem mem_sortByScoreDesc (score : Candidate → ℚ) (x : Candidate)
    (l : List Candidate) : x ∈ sortByScoreDesc score l ↔ x ∈ l := by
  have h : ∀ acc : List Candidate,
      x ∈ l.foldl (fun acc y => insertByScoreDesc score y acc) acc ↔
        x ∈ acc ∨ x ∈ l := by
    induction l with
    | nil => intro acc; simp
    | cons hd tl ih =>
      intro acc
      simp only [List.foldl_cons, ih, mem_insertByScoreDesc, List.mem_cons]
      tauto
  simpa [sortByScoreDesc] using h []

theorem qualifies_of_mem_filter_candidates (cfg : Config)
    (registered : List (String × AgentProfile)) (age : String → Option Int)
    (cands : List Candidate) (c : Candidate)
    (h : c ∈ filter_candidates cfg registered age cands) :
    candidate_qualifies cfg registered age c = true := by
  unfold filter_candidates at h
  have h1 := List.take_subset 10 _ h
  rw [mem_sortByScoreDesc] at h1
  exact (List.mem_filter.mp h1).2

/-- Claim C10 (confirmed): `filter_candidates` never returns a candidate
whose karma is below `min_karma_requirement`, never returns a candidate
whose parseable last-active age exceeds 7 days (regardless of score), and
for a candidate whose last-active timestamp does not parse the
qualification test degenerates to the remaining conditions — no exclusion
on activity grounds. -/
theorem filter_candidates_exclusions (cfg : Config)
    (registered : List (String × AgentProfile)) (age : String → Option Int)
    (cands : List Candidate) (c : Candidate) :
    (c.karma < cfg.min_karma_requirement →
        c ∉ filter_candidates cfg registered age cands) ∧
      (∀ d : Int, age c.last_active = some d → 7 < d →
        c ∉ filter_candidates cfg registered age cands) ∧
      (age c.last_active = none →
        candidate_qualifies cfg registered age c =
          (!(lookupKey registered c.username).isSome &&
            (!decide (c.karma < cfg.min_karma_requirement) &&
              decide ((70 : ℚ) < calculate_candidate_score cfg c)))) := by
  refine ⟨?_, ?_, ?_⟩
  · intro hk hmem
    have hq := qualifies_of_mem_filter_candidates cfg registered age cands
      c hmem
    simp [candidate_qualifies, hk] at hq
  · intro d hd h7 hmem
    have hq := qualifies_of_mem_filter_candidates cfg registered age cands
      c hmem
    simp [candidate_qualifies, hd, h7] at hq
  · intro hn
    simp [candidate_qualifies, hn, Bool.and_assoc]

/-- A candidate with karma below the default minimum. -/
def cLowC10 : Candidate :=
  { username := "lowk", karma := 0, specializations := []
    posts_per_month := 0, followers := 0, last_active := "2020-01-01" }

/-- A candidate whose recruitment score (72) exceeds 70. -/
def cOldC10 : Candidate :=
  { username := "oldie", karma := 500
    specializations := ["research", "governance"], posts_per_month := 15
    followers := 50, last_active := "2020-01-01" }

/-- Witness for `filter_candidates_exclusions`: a low-karma candidate is
excluded, an 8-days-inactive candidate scoring 72 is excluded, and an
unparseable last-active is not an activity exclusion. -/
theorem filter_candidates_exclusions_witness :
    cLowC10 ∉ filter_candidates default_config [] (fun _ => none)
        [cLowC10] ∧
      cOldC10 ∉ filter_candidates default_config [] (fun _ => some 8)
        [cOldC10] ∧
      candidate_qualifies default_config [] (fun _ => none) cOldC10 =
        (!(lookupKey ([] : List (String × AgentProfile))
            cOldC10.username).isSome &&
          (!decide (cOldC10.karma < default_config.min_karma_requirement) &&
            decide ((70 : ℚ) <
              calculate_candidate_score default_config cOldC10))) := by
  refine ⟨(filter_candidates_exclusions default_config [] (fun _ => none)
      [cLowC10] cLowC10).1 (by norm_num [cLowC10, default_config]),
    (filter_candidates_exclusions default_config [] (fun _ => some 8)
      [cOldC10] cOldC10).2.1 8 rfl (by norm_num),
    (filter_candidates_exclusions default_config [] (fun _ => none)
      [cOldC10] cOldC10).2.2 rfl⟩

end Moltbook
